import Mathlib

/-!
Verification of the IUU risk-scoring web application.

The definitions below are a shallow embedding of the core logic of
`iuu_web_app_patched.py`: the schema validator, the haversine distance
function, the per-vessel risk scorer with its reason list, the
proximity filter, and the operational-summary generator.  Machine
floats are modelled as `ℚ` where the program only compares and prints
them, and as `ℝ` where it feeds them to trigonometric functions.
-/

open Real

/-- One vessel row of the uploaded CSV, after numeric coercion.
Field names follow the required CSV columns. -/
structure VesselRecord where
  vesselName : String
  mmsi : String
  imo : String
  flagState : String
  latitude : ℝ
  longitude : ℝ
  daysSincePort : ℚ
  speed : ℚ
  loiteringHours : ℚ
  aisGapHours : ℚ

/-- The sidebar scoring configuration: the editable high-risk flag list,
the five integer slider weights (sliders have minimum 0, so `ℕ`), the
three integer thresholds and the float speed threshold. -/
structure ScoringConfig where
  highRiskFlags : List String
  w_flag : ℕ
  w_days_port : ℕ
  w_loiter : ℕ
  w_ais_gap : ℕ
  w_slow_speed : ℕ
  t_days_port : ℕ
  t_loiter : ℕ
  t_ais_gap : ℕ
  t_speed : ℚ

/-- `score_vessel` from `iuu_web_app_patched.py`: five independent
boolean checks, each adding its configured weight to the running score. -/
def score_vessel (cfg : ScoringConfig) (row : VesselRecord) : ℕ :=
  let score : ℕ := 0
  let score := if row.flagState ∈ cfg.highRiskFlags then score + cfg.w_flag else score
  let score := if row.daysSincePort > (cfg.t_days_port : ℚ) then score + cfg.w_days_port else score
  let score := if row.loiteringHours > (cfg.t_loiter : ℚ) then score + cfg.w_loiter else score
  let score := if row.aisGapHours > (cfg.t_ais_gap : ℚ) then score + cfg.w_ais_gap else score
  let score := if row.speed < cfg.t_speed then score + cfg.w_slow_speed else score
  score

/-- `risk_level` from `iuu_web_app_patched.py`: fixed cut points 80/60/40. -/
def risk_level (score : ℕ) : String :=
  if score ≥ 80 then "Critical"
  else if score ≥ 60 then "High"
  else if score ≥ 40 then "Medium"
  else "Low"

/-- Modelled from Python string interpolation of the numeric cell values:
an integer-valued cell prints with no decimal point, a value with one
decimal digit prints as `d.d` (these are the only shapes the app's
narrative interpolates in the verified examples). -/
def showNum (q : ℚ) : String :=
  if q.den = 1 then toString q.num
  else if (q * 10).den = 1 then
    toString ((q * 10).num / 10) ++ "." ++ toString (((q * 10).num % 10).natAbs)
  else toString q

/-- The reason list built in the narrative section of
`iuu_web_app_patched.py` (same five checks as `score_vessel`, in the same
order, with the fallback "Routine behavior" entry). -/
def reasons (cfg : ScoringConfig) (row : VesselRecord) : List String :=
  let rs : List String := []
  let rs := if row.flagState ∈ cfg.highRiskFlags then
    rs ++ ["Flagged to higher-risk state (" ++ row.flagState ++ ")"] else rs
  let rs := if row.daysSincePort > (cfg.t_days_port : ℚ) then
    rs ++ ["Extended time at sea: " ++ showNum row.daysSincePort ++ " days since last port"] else rs
  let rs := if row.loiteringHours > (cfg.t_loiter : ℚ) then
    rs ++ ["Significant loitering: " ++ showNum row.loiteringHours ++ " hours"] else rs
  let rs := if row.aisGapHours > (cfg.t_ais_gap : ℚ) then
    rs ++ ["Long AIS silence: " ++ showNum row.aisGapHours ++ " hours offline"] else rs
  let rs := if row.speed < cfg.t_speed then
    rs ++ ["Very low speed: " ++ showNum row.speed ++ " knots"] else rs
  if rs = [] then ["Routine behavior within configured thresholds."] else rs

/-- `default_high_risk_flags` from the sidebar. -/
def default_high_risk_flags : List String :=
  ["Panama", "Honduras", "Cambodia", "Belize",
   "St. Kitts & Nevis", "Sierra Leone", "Togo"]

/-- The sidebar defaults: weights 25/15/20/20/10, thresholds 30/12/24/2.0. -/
def defaultConfig : ScoringConfig :=
  { highRiskFlags := default_high_risk_flags
    w_flag := 25, w_days_port := 15, w_loiter := 20, w_ais_gap := 20, w_slow_speed := 10
    t_days_port := 30, t_loiter := 12, t_ais_gap := 24, t_speed := 2 }

/-- `required_columns` from `iuu_web_app_patched.py`. -/
def required_columns : List String :=
  ["Vessel Name", "MMSI", "IMO", "Flag State",
   "Latitude", "Longitude", "Days Since Port",
   "Speed (knots)", "Loitering Hours", "AIS Gap Hours"]

/-- `missing_columns = [col for col in required_columns if col not in df.columns]`. -/
def missing_columns (cols : List String) : List String :=
  required_columns.filter (fun c => decide (c ∉ cols))

/-- A raw CSV row before numeric coercion: `none` in a numeric field models
a missing or non-numeric cell (what `pd.to_numeric(errors="coerce")`
turns into NaN). -/
structure RawVesselRecord where
  vesselName : String
  mmsi : String
  imo : String
  flagState : String
  latitude : Option ℝ
  longitude : Option ℝ
  daysSincePort : Option ℚ
  speed : Option ℚ
  loiteringHours : Option ℚ
  aisGapHours : Option ℚ

/-- The `pd.to_numeric(...errors="coerce")` + `fillna(0)` step: every
missing or non-numeric numeric cell becomes 0. -/
def coerceRecord (r : RawVesselRecord) : VesselRecord :=
  { vesselName := r.vesselName, mmsi := r.mmsi, imo := r.imo, flagState := r.flagState
    latitude := r.latitude.getD 0, longitude := r.longitude.getD 0
    daysSincePort := r.daysSincePort.getD 0, speed := r.speed.getD 0
    loiteringHours := r.loiteringHours.getD 0, aisGapHours := r.aisGapHours.getD 0 }

/-- The schema-validation gate of `iuu_web_app_patched.py`: if any required
column is missing the run stops with the error message naming them
(`st.error` + `st.stop`), otherwise every row is numerically coerced and
processing continues. -/
def validateBatch (cols : List String) (rows : List RawVesselRecord) :
    Except String (List VesselRecord) :=
  if missing_columns cols ≠ [] then
    Except.error ("Missing required columns: " ++ String.intercalate ", " (missing_columns cols))
  else
    Except.ok (rows.map coerceRecord)

/-- `math.radians`. -/
noncomputable def radians (d : ℝ) : ℝ := d * Real.pi / 180

/-- `math.degrees`. -/
noncomputable def degrees (x : ℝ) : ℝ := x * 180 / Real.pi

/-- `math.atan2` (two-argument arctangent, quadrant-aware). -/
noncomputable def atan2 (y x : ℝ) : ℝ :=
  if 0 < x then Real.arctan (y / x)
  else if x < 0 then
    (if 0 ≤ y then Real.arctan (y / x) + Real.pi else Real.arctan (y / x) - Real.pi)
  else
    (if 0 < y then Real.pi / 2 else if y < 0 then -(Real.pi / 2) else 0)

/-- `haversine_nm` from `iuu_web_app_patched.py`: haversine formula with
the `asin`-of-square-root central angle and Earth radius 3440.07 nm. -/
noncomputable def haversine_nm (lat1 lon1 lat2 lon2 : ℝ) : ℝ :=
  let rlat1 := radians lat1
  let rlon1 := radians lon1
  let rlat2 := radians lat2
  let rlon2 := radians lon2
  let dlat := rlat2 - rlat1
  let dlon := rlon2 - rlon1
  let a := Real.sin (dlat / 2) ^ 2 +
    Real.cos rlat1 * Real.cos rlat2 * Real.sin (dlon / 2) ^ 2
  let c := 2 * Real.arcsin (Real.sqrt a)
  3440.07 * c

/-- Modelled from the spec: the same haversine formula on radius 3440.07 nm
but with the central angle written in the `atan2`-based form
`c = 2 * atan2(sqrt(a), sqrt(1 - a))` (the form the spec prescribes for
the distance calculator; the patched source writes `2 * asin(sqrt(a))`
instead). -/
noncomputable def haversineAtan2Spec (lat1 lon1 lat2 lon2 : ℝ) : ℝ :=
  let rlat1 := radians lat1
  let rlon1 := radians lon1
  let rlat2 := radians lat2
  let rlon2 := radians lon2
  let dlat := rlat2 - rlat1
  let dlon := rlon2 - rlon1
  let a := Real.sin (dlat / 2) ^ 2 +
    Real.cos rlat1 * Real.cos rlat2 * Real.sin (dlon / 2) ^ 2
  let c := 2 * atan2 (Real.sqrt a) (Real.sqrt (1 - a))
  3440.07 * c

/-- The `Distance from Patrol (nm)` column: `haversine_nm(patrol_lat,
patrol_lon, r["Latitude"], r["Longitude"])` applied to each row. -/
noncomputable def distanceFromPatrol (plat plon : ℝ) (r : VesselRecord) : ℝ :=
  haversine_nm plat plon r.latitude r.longitude

open Classical in
/-- `df_view = df[df["Distance from Patrol (nm)"] <= max_distance_filter]`. -/
noncomputable def df_view (plat plon thr : ℝ) (rows : List VesselRecord) :
    List VesselRecord :=
  rows.filter (fun r => decide (distanceFromPatrol plat plon r ≤ thr))

open Classical in
/-- `cardinal_direction` from the operational-summary section: planar
bearing angle `atan2(dlat, dlon)` in degrees, bucketed at ±45° and ±135°. -/
noncomputable def cardinal_direction (lat_p lon_p lat_v lon_v : ℝ) : String :=
  let dlat := lat_v - lat_p
  let dlon := lon_v - lon_p
  let angle := degrees (atan2 dlat dlon)
  if -45 ≤ angle ∧ angle ≤ 45 then "East"
  else if 45 < angle ∧ angle < 135 then "North"
  else if -135 < angle ∧ angle < -45 then "South"
  else "West"

/-- Modelled from the pandas contract of `value_counts().idxmax()` on the
direction column: a value whose occurrence count in the column is maximal
(the column only ever holds the four cardinal direction strings; the tie
order among equally frequent values is not specified by the library, so
any fixed argmax is a faithful model of the guarantee the code relies on). -/
def majorityDirection (l : List String) : String :=
  ["East", "North", "South", "West"].foldl
    (fun best d => if l.count best < l.count d then d else best) "East"

/-- Modelled from the pandas contract of
`sort_values(by="Risk Score", ascending=False)`: the output is a
permutation of the input whose scores are in non-increasing order.  The
default `kind="quicksort"` leaves the relative order of equal keys
unspecified, so the contract is a relation, not a function. -/
def IsSortValuesOutput (cfg : ScoringConfig) (input output : List VesselRecord) : Prop :=
  input.Perm output ∧
    output.Sorted (fun a b => score_vessel cfg b ≤ score_vessel cfg a)

/-- A deterministic stand-in for `sort_values(by="Risk Score",
ascending=False)` used where the pipeline needs a concrete ranked list
(insertion sort, descending by score; one admissible implementation of
the library contract). -/
def insertByScoreDesc (cfg : ScoringConfig) (r : VesselRecord) :
    List VesselRecord → List VesselRecord
  | [] => [r]
  | x :: xs =>
    if score_vessel cfg x < score_vessel cfg r then r :: x :: xs
    else x :: insertByScoreDesc cfg r xs

/-- See `insertByScoreDesc`. -/
def sortByScoreDesc (cfg : ScoringConfig) : List VesselRecord → List VesselRecord
  | [] => []
  | r :: rest => insertByScoreDesc cfg r (sortByScoreDesc cfg rest)

open Classical in
/-- The operational-summary string of `iuu_web_app_patched.py`: the
100 nm count sentence (or the "no vessels" sentence when the 100 nm set
is empty), the majority-bearing sentence, and the 50 nm priority-vessel
sentence whose wording varies with the number of priority vessels. -/
noncomputable def operationalSummary (cfg : ScoringConfig) (plat plon : ℝ)
    (rows : List VesselRecord) : String :=
  let within100 := rows.filter (fun r => decide (distanceFromPatrol plat plon r ≤ 100))
  let count100 := within100.length
  if count100 = 0 then
    "Summary: There are no vessels within 100 miles of your position."
  else
    let directions := within100.map (fun r => cardinal_direction plat plon r.latitude r.longitude)
    let majority := if directions.isEmpty then "unknown" else majorityDirection directions
    let within50 := rows.filter (fun r => decide (distanceFromPatrol plat plon r ≤ 50))
    let priorityVessels := ((sortByScoreDesc cfg within50).take 3).map (·.vesselName)
    let baseSummary := "Summary: There are " ++ toString count100 ++
      " vessels within 100 miles of your position. The majority of vessels are to the " ++
      majority ++ "."
    let prioritySummary :=
      match priorityVessels with
      | [] => " There are no priority vessels within 50 miles of your asset."
      | [a] => " There is one priority vessel within 50 miles of your asset. It is " ++ a ++ "."
      | [a, b] => " There are two priority vessels within 50 miles of your asset. They are " ++
          a ++ " and " ++ b ++ "."
      | a :: b :: c :: _ => " There are three priority vessels within 50 miles of your asset. They are " ++
          a ++ ", " ++ b ++ ", and " ++ c ++ "."
    baseSummary ++ prioritySummary

/-- One scored row of the full dataset: the original record plus the
computed `Distance from Patrol (nm)`, `Risk Score`, `Risk Level` columns
and the narrative reason list. -/
structure ScoredVessel where
  record : VesselRecord
  distance : ℝ
  riskScore : ℕ
  riskLevel : String
  reasonList : List String

/-- The per-row column computation of the pipeline (`df.apply` steps):
distance from the patrol position, risk score, risk level, reasons. -/
noncomputable def scoreRow (cfg : ScoringConfig) (plat plon : ℝ) (r : VesselRecord) :
    ScoredVessel :=
  { record := r
    distance := distanceFromPatrol plat plon r
    riskScore := score_vessel cfg r
    riskLevel := risk_level (score_vessel cfg r)
    reasonList := reasons cfg r }

/-- The whole per-vessel stage of the pipeline over the uploaded set. -/
noncomputable def pipelineRows (cfg : ScoringConfig) (plat plon : ℝ)
    (rows : List VesselRecord) : List ScoredVessel :=
  rows.map (scoreRow cfg plat plon)

/-- A concrete vessel row used in witnesses (Example A shape of the spec). -/
def vesselAlpha : VesselRecord :=
  ⟨"Alpha", "100000001", "9000001", "Panama", 0, 0, 45, 0.5, 5, 10⟩

/-- A second concrete vessel row, identical to `vesselAlpha` except for its
identity fields, so it has the same risk score. -/
def vesselBravo : VesselRecord :=
  ⟨"Bravo", "100000002", "9000002", "Panama", 0, 0, 45, 0.5, 5, 10⟩

/-- A configuration whose weights sum to 75 (< 80), used to exercise the
unreachable-"Critical" consequence. -/
def lowWeightConfig : ScoringConfig :=
  { defaultConfig with w_flag := 10 }

/-! ### Helper lemmas -/

lemma score_vessel_le_sum (cfg : ScoringConfig) (row : VesselRecord) :
    score_vessel cfg row ≤
      cfg.w_flag + cfg.w_days_port + cfg.w_loiter + cfg.w_ais_gap + cfg.w_slow_speed := by
  simp only [score_vessel]
  split_ifs <;> omega

lemma hav_term_bounds (r1 r2 d : ℝ) :
    0 ≤ Real.sin ((r2 - r1) / 2) ^ 2 + Real.cos r1 * Real.cos r2 * Real.sin (d / 2) ^ 2 ∧
      Real.sin ((r2 - r1) / 2) ^ 2 + Real.cos r1 * Real.cos r2 * Real.sin (d / 2) ^ 2 ≤ 1 := by
  have e1 := Real.sin_sq_eq_half_sub ((r2 - r1) / 2)
  rw [show 2 * ((r2 - r1) / 2) = r2 - r1 by ring] at e1
  have e2 := Real.sin_sq_eq_half_sub (d / 2)
  rw [show 2 * (d / 2) = d by ring] at e2
  have hcs : Real.cos (r2 - r1) = Real.cos r2 * Real.cos r1 + Real.sin r2 * Real.sin r1 :=
    Real.cos_sub r2 r1
  have h1 : Real.sin r1 ^ 2 + Real.cos r1 ^ 2 = 1 := Real.sin_sq_add_cos_sq r1
  have h2 : Real.sin r2 ^ 2 + Real.cos r2 ^ 2 = 1 := Real.sin_sq_add_cos_sq r2
  have hx : Real.cos d ^ 2 ≤ 1 := by
    nlinarith [Real.neg_one_le_cos d, Real.cos_le_one d]
  have h1' : (Real.sin r1 ^ 2 + Real.cos r1 ^ 2) *
      (Real.sin r2 ^ 2 + Real.cos r2 ^ 2 * Real.cos d ^ 2) =
      Real.sin r2 ^ 2 + Real.cos r2 ^ 2 * Real.cos d ^ 2 := by
    rw [h1]; ring
  have hc2x : Real.cos r2 ^ 2 * Real.cos d ^ 2 ≤ Real.cos r2 ^ 2 := by
    nlinarith [sq_nonneg (Real.cos r2), hx]
  have key : (Real.sin r1 * Real.sin r2 + Real.cos r1 * Real.cos r2 * Real.cos d) ^ 2 ≤ 1 := by
    nlinarith [sq_nonneg (Real.sin r1 * (Real.cos r2 * Real.cos d) - Real.cos r1 * Real.sin r2),
      h1', hc2x, h2]
  have habs : |Real.sin r1 * Real.sin r2 + Real.cos r1 * Real.cos r2 * Real.cos d| ≤ 1 :=
    (sq_le_one_iff_abs_le_one _).mp key
  rw [abs_le] at habs
  constructor
  · rw [e1, e2, hcs]
    nlinarith [habs.2]
  · rw [e1, e2, hcs]
    nlinarith [habs.1]

lemma arcsin_sqrt_eq_atan2 {A : ℝ} (h0 : 0 ≤ A) (h1 : A ≤ 1) :
    Real.arcsin (Real.sqrt A) = atan2 (Real.sqrt A) (Real.sqrt (1 - A)) := by
  rcases eq_or_lt_of_le h1 with h | h
  · subst h
    simp [atan2, Real.sqrt_one, Real.sqrt_zero, Real.arcsin_one]
  · have hx : 0 < Real.sqrt (1 - A) := Real.sqrt_pos.mpr (by linarith)
    rw [atan2, if_pos hx]
    have hmem : Real.sqrt A ∈ Set.Ioo (-(1 : ℝ)) 1 := by
      constructor
      · exact lt_of_lt_of_le (by norm_num) (Real.sqrt_nonneg A)
      · exact (Real.sqrt_lt' one_pos).mpr (by linarith)
    rw [Real.arcsin_eq_arctan hmem, Real.sq_sqrt h0]

lemma haversine_nm_self (lat lon : ℝ) : haversine_nm lat lon lat lon = 0 := by
  simp [haversine_nm]

lemma haversine_nm_symm (lat1 lon1 lat2 lon2 : ℝ) :
    haversine_nm lat1 lon1 lat2 lon2 = haversine_nm lat2 lon2 lat1 lon1 := by
  have k : ∀ u v : ℝ, Real.sin ((u - v) / 2) ^ 2 = Real.sin ((v - u) / 2) ^ 2 := by
    intro u v
    rw [show (u - v) / 2 = -((v - u) / 2) by ring, Real.sin_neg]
    ring
  simp only [haversine_nm]
  rw [k (radians lat2) (radians lat1), k (radians lon2) (radians lon1),
    mul_comm (Real.cos (radians lat1)) (Real.cos (radians lat2))]

lemma haversine_nm_eq_atan2_form (lat1 lon1 lat2 lon2 : ℝ) :
    haversine_nm lat1 lon1 lat2 lon2 = haversineAtan2Spec lat1 lon1 lat2 lon2 := by
  simp only [haversine_nm, haversineAtan2Spec]
  obtain ⟨h0, h1⟩ := hav_term_bounds (radians lat1) (radians lat2)
    (radians lon2 - radians lon1)
  rw [arcsin_sqrt_eq_atan2 h0 h1]

lemma haversine_nm_one_deg (lat lon : ℝ) :
    |haversine_nm lat lon (lat + 1) lon - 60.04| ≤ 0.1 := by
  have hd : radians (lat + 1) - radians lat = Real.pi / 180 := by
    simp only [radians]; ring
  have hval : haversine_nm lat lon (lat + 1) lon = 3440.07 * (2 * (Real.pi / 360)) := by
    simp only [haversine_nm, hd, sub_self]
    rw [show Real.pi / 180 / 2 = Real.pi / 360 by ring]
    rw [show (0 : ℝ) / 2 = 0 by norm_num, Real.sin_zero]
    have hsin_nonneg : 0 ≤ Real.sin (Real.pi / 360) :=
      Real.sin_nonneg_of_nonneg_of_le_pi (by positivity)
        (by nlinarith [Real.pi_pos])
    rw [show Real.sin (Real.pi / 360) ^ 2 + Real.cos (radians lat) *
        Real.cos (radians (lat + 1)) * 0 ^ 2 = Real.sin (Real.pi / 360) ^ 2 by ring]
    rw [Real.sqrt_sq hsin_nonneg]
    rw [Real.arcsin_sin (by nlinarith [Real.pi_pos]) (by nlinarith [Real.pi_pos])]
  rw [hval, abs_le]
  constructor <;> nlinarith [Real.pi_gt_d6, Real.pi_lt_d6]

lemma count_le_foldl_argmax (l : List String) (ds : List String) (init : String) :
    l.count init ≤
      l.count (ds.foldl (fun best d => if l.count best < l.count d then d else best) init) ∧
    ∀ d ∈ ds, l.count d ≤
      l.count (ds.foldl (fun best d => if l.count best < l.count d then d else best) init) := by
  induction ds generalizing init with
  | nil => simp
  | cons d ds ih =>
    simp only [List.foldl_cons]
    constructor
    · refine le_trans ?_ (ih (if l.count init < l.count d then d else init)).1
      split_ifs with h
      · exact le_of_lt h
      · exact le_rfl
    · intro e he
      rcases List.mem_cons.mp he with rfl | he
      · refine le_trans ?_ (ih (if l.count init < l.count e then e else init)).1
        split_ifs with h
        · exact le_rfl
        · omega
      · exact (ih _).2 e he

lemma cardinal_direction_mem (a b c d : ℝ) :
    cardinal_direction a b c d ∈ ["East", "North", "South", "West"] := by
  simp only [cardinal_direction]
  split_ifs <;> simp

lemma majorityDirection_count_ge (l : List String)
    (hl : ∀ s ∈ l, s ∈ ["East", "North", "South", "West"]) (d : String) :
    l.count d ≤ l.count (majorityDirection l) := by
  by_cases hd : d ∈ ["East", "North", "South", "West"]
  · exact (count_le_foldl_argmax l ["East", "North", "South", "West"] "East").2 d hd
  · have : d ∉ l := fun hmem => hd (hl d hmem)
    rw [List.count_eq_zero.mpr this]
    exact Nat.zero_le _

/-! ### Claim theorems -/

/-- C2: the concrete record with flag "Panama", Days Since Port 45,
Loitering 5, AIS Gap 10, Speed 0.5 scores 50 under the default weights
and thresholds, gets level "Medium", and its reason list is exactly the
flag, days-at-sea and low-speed reasons in that order. -/
theorem C2_exampleA (name mmsi imo : String) (lat lon : ℝ) :
    score_vessel defaultConfig ⟨name, mmsi, imo, "Panama", lat, lon, 45, 0.5, 5, 10⟩ = 50 ∧
    risk_level (score_vessel defaultConfig ⟨name, mmsi, imo, "Panama", lat, lon, 45, 0.5, 5, 10⟩) =
      "Medium" ∧
    reasons defaultConfig ⟨name, mmsi, imo, "Panama", lat, lon, 45, 0.5, 5, 10⟩ =
      ["Flagged to higher-risk state (Panama)",
       "Extended time at sea: 45 days since last port",
       "Very low speed: 0.5 knots"] := by
  have hs : score_vessel defaultConfig ⟨name, mmsi, imo, "Panama", lat, lon, 45, 0.5, 5, 10⟩ = 50 := by
    norm_num [score_vessel, defaultConfig, default_high_risk_flags]
  refine ⟨hs, ?_, ?_⟩
  · rw [hs]; decide
  · norm_num [reasons, defaultConfig, default_high_risk_flags, showNum]
    decide

/-- C3: for every vessel record and every configuration (weights are
natural numbers, hence non-negative), the score lies in
`[0, w_flag + w_days_port + w_loiter + w_ais_gap + w_slow_speed]`. -/
theorem C3_score_in_weight_interval (cfg : ScoringConfig) (row : VesselRecord) :
    0 ≤ score_vessel cfg row ∧
    score_vessel cfg row ≤
      cfg.w_flag + cfg.w_days_port + cfg.w_loiter + cfg.w_ais_gap + cfg.w_slow_speed :=
  ⟨Nat.zero_le _, score_vessel_le_sum cfg row⟩

/-- C5: `haversine_nm` computes, at radius 3440.07 nm, the same value as
the atan2-based central-angle haversine form; it is exactly zero on equal
points, exactly symmetric, and maps a 1-degree latitude separation to a
distance within 0.1 nm of 60.04 nm. -/
theorem C5_haversine_properties :
    (∀ lat1 lon1 lat2 lon2 : ℝ,
      haversine_nm lat1 lon1 lat2 lon2 = haversineAtan2Spec lat1 lon1 lat2 lon2) ∧
    (∀ lat lon : ℝ, haversine_nm lat lon lat lon = 0) ∧
    (∀ lat1 lon1 lat2 lon2 : ℝ,
      haversine_nm lat1 lon1 lat2 lon2 = haversine_nm lat2 lon2 lat1 lon1) ∧
    (∀ lat lon : ℝ, |haversine_nm lat lon (lat + 1) lon - 60.04| ≤ 0.1) :=
  ⟨haversine_nm_eq_atan2_form, haversine_nm_self, haversine_nm_symm, haversine_nm_one_deg⟩

/-- C1: the ranking step delegates to `sort_values` with the default
(unstable) sort kind, whose documented contract only promises a
score-descending permutation.  This theorem exhibits a concrete
two-vessel input and an output permitted by that contract in which two
distinct vessels with equal risk scores appear in reversed input order:
the contract the code relies on does not entail stability. -/
theorem C1_sort_contract_allows_tie_reorder :
    IsSortValuesOutput defaultConfig [vesselAlpha, vesselBravo] [vesselBravo, vesselAlpha] ∧
    vesselAlpha ≠ vesselBravo ∧
    score_vessel defaultConfig vesselAlpha = score_vessel defaultConfig vesselBravo := by
  have hA : score_vessel defaultConfig vesselAlpha = 50 := by
    norm_num [score_vessel, defaultConfig, default_high_risk_flags, vesselAlpha]
  have hB : score_vessel defaultConfig vesselBravo = 50 := by
    norm_num [score_vessel, defaultConfig, default_high_risk_flags, vesselBravo]
  refine ⟨⟨List.Perm.swap vesselBravo vesselAlpha [], ?_⟩, ?_, ?_⟩
  · simp [List.sorted_cons, hA, hB]
  · intro h
    exact absurd (congrArg VesselRecord.vesselName h) (by decide)
  · rw [hA, hB]

/-- C4: the score is monotone non-decreasing in each of the five boolean
triggers separately: turning one trigger from false to true, with every
other field fixed, never lowers the score. -/
theorem C4_score_monotone_in_triggers :
    (∀ (cfg : ScoringConfig) (r : VesselRecord) (f₁ f₂ : String),
      f₁ ∉ cfg.highRiskFlags → f₂ ∈ cfg.highRiskFlags →
      score_vessel cfg { r with flagState := f₁ } ≤ score_vessel cfg { r with flagState := f₂ }) ∧
    (∀ (cfg : ScoringConfig) (r : VesselRecord) (d₁ d₂ : ℚ),
      ¬ d₁ > (cfg.t_days_port : ℚ) → d₂ > (cfg.t_days_port : ℚ) →
      score_vessel cfg { r with daysSincePort := d₁ } ≤
        score_vessel cfg { r with daysSincePort := d₂ }) ∧
    (∀ (cfg : ScoringConfig) (r : VesselRecord) (h₁ h₂ : ℚ),
      ¬ h₁ > (cfg.t_loiter : ℚ) → h₂ > (cfg.t_loiter : ℚ) →
      score_vessel cfg { r with loiteringHours := h₁ } ≤
        score_vessel cfg { r with loiteringHours := h₂ }) ∧
    (∀ (cfg : ScoringConfig) (r : VesselRecord) (g₁ g₂ : ℚ),
      ¬ g₁ > (cfg.t_ais_gap : ℚ) → g₂ > (cfg.t_ais_gap : ℚ) →
      score_vessel cfg { r with aisGapHours := g₁ } ≤
        score_vessel cfg { r with aisGapHours := g₂ }) ∧
    (∀ (cfg : ScoringConfig) (r : VesselRecord) (s₁ s₂ : ℚ),
      ¬ s₁ < cfg.t_speed → s₂ < cfg.t_speed →
      score_vessel cfg { r with speed := s₁ } ≤ score_vessel cfg { r with speed := s₂ }) := by
  refine ⟨?_, ?_, ?_, ?_, ?_⟩ <;>
    (intro cfg r x₁ x₂ h₁ h₂
     simp only [score_vessel]
     split_ifs <;> omega)

/-- C4 witness: the five monotonicity components at concrete inputs. -/
theorem C4_score_monotone_in_triggers_witness :
    score_vessel defaultConfig { vesselAlpha with flagState := "Norway" } ≤
      score_vessel defaultConfig { vesselAlpha with flagState := "Panama" } ∧
    score_vessel defaultConfig { vesselAlpha with daysSincePort := 0 } ≤
      score_vessel defaultConfig { vesselAlpha with daysSincePort := 45 } ∧
    score_vessel defaultConfig { vesselAlpha with loiteringHours := 0 } ≤
      score_vessel defaultConfig { vesselAlpha with loiteringHours := 20 } ∧
    score_vessel defaultConfig { vesselAlpha with aisGapHours := 0 } ≤
      score_vessel defaultConfig { vesselAlpha with aisGapHours := 30 } ∧
    score_vessel defaultConfig { vesselAlpha with speed := 5 } ≤
      score_vessel defaultConfig { vesselAlpha with speed := 0.5 } :=
  ⟨C4_score_monotone_in_triggers.1 defaultConfig vesselAlpha "Norway" "Panama"
      (by decide) (by decide),
   C4_score_monotone_in_triggers.2.1 defaultConfig vesselAlpha 0 45
      (by norm_num [defaultConfig]) (by norm_num [defaultConfig]),
   C4_score_monotone_in_triggers.2.2.1 defaultConfig vesselAlpha 0 20
      (by norm_num [defaultConfig]) (by norm_num [defaultConfig]),
   C4_score_monotone_in_triggers.2.2.2.1 defaultConfig vesselAlpha 0 30
      (by norm_num [defaultConfig]) (by norm_num [defaultConfig]),
   C4_score_monotone_in_triggers.2.2.2.2 defaultConfig vesselAlpha 5 0.5
      (by norm_num [defaultConfig]) (by norm_num [defaultConfig])⟩

/-- C6: the proximity filter retains exactly the vessels whose distance
from the patrol position is at most the threshold; in particular a vessel
at distance exactly the threshold is retained, and with threshold 0 a
vessel whose coordinates equal the patrol's is retained. -/
theorem C6_filter_inclusive_boundary :
    (∀ (plat plon thr : ℝ) (rows : List VesselRecord) (r : VesselRecord),
      r ∈ df_view plat plon thr rows ↔
        r ∈ rows ∧ distanceFromPatrol plat plon r ≤ thr) ∧
    (∀ (plat plon thr : ℝ) (rows : List VesselRecord) (r : VesselRecord),
      r ∈ rows → distanceFromPatrol plat plon r = thr → r ∈ df_view plat plon thr rows) ∧
    (∀ (plat plon : ℝ) (rows : List VesselRecord) (r : VesselRecord),
      r ∈ rows → r.latitude = plat → r.longitude = plon → r ∈ df_view plat plon 0 rows) := by
  have hmem : ∀ (plat plon thr : ℝ) (rows : List VesselRecord) (r : VesselRecord),
      r ∈ df_view plat plon thr rows ↔
        r ∈ rows ∧ distanceFromPatrol plat plon r ≤ thr := by
    intro plat plon thr rows r
    simp [df_view, List.mem_filter]
  refine ⟨hmem, ?_, ?_⟩
  · intro plat plon thr rows r hr hd
    exact (hmem plat plon thr rows r).mpr ⟨hr, le_of_eq hd⟩
  · intro plat plon rows r hr hlat hlon
    refine (hmem plat plon 0 rows r).mpr ⟨hr, ?_⟩
    unfold distanceFromPatrol
    rw [← hlat, ← hlon, haversine_nm_self]

/-- C6 witness: with the patrol at (0, 0) and threshold 0, the vessel
`vesselAlpha` (also at (0, 0)) is retained; and it is retained when its
distance exactly equals the threshold 0. -/
theorem C6_filter_inclusive_boundary_witness :
    vesselAlpha ∈ df_view 0 0 0 [vesselAlpha] ∧
    vesselAlpha ∈ df_view 0 0 (distanceFromPatrol 0 0 vesselAlpha) [vesselAlpha] :=
  ⟨C6_filter_inclusive_boundary.2.2 0 0 [vesselAlpha] vesselAlpha
      (List.mem_singleton_self _) rfl rfl,
   C6_filter_inclusive_boundary.2.1 0 0 (distanceFromPatrol 0 0 vesselAlpha) [vesselAlpha]
      vesselAlpha (List.mem_singleton_self _) rfl⟩

/-- C7: if any required column is absent the batch fails with an error
naming exactly the missing columns and no records are produced; if all
are present, every missing/non-numeric numeric cell is coerced to zero
and the batch succeeds. -/
theorem C7_schema_validation (onecols : List String) (rows : List RawVesselRecord) :
    (missing_columns onecols ≠ [] →
      validateBatch onecols rows =
        Except.error ("Missing required columns: " ++
          String.intercalate ", " (missing_columns onecols))) ∧
    (∀ c, c ∈ missing_columns onecols ↔ c ∈ required_columns ∧ c ∉ onecols) ∧
    (missing_columns onecols = [] →
      validateBatch onecols rows = Except.ok (rows.map coerceRecord)) ∧
    (∀ raw : RawVesselRecord,
      (raw.latitude = none → (coerceRecord raw).latitude = 0) ∧
      (raw.longitude = none → (coerceRecord raw).longitude = 0) ∧
      (raw.daysSincePort = none → (coerceRecord raw).daysSincePort = 0) ∧
      (raw.speed = none → (coerceRecord raw).speed = 0) ∧
      (raw.loiteringHours = none → (coerceRecord raw).loiteringHours = 0) ∧
      (raw.aisGapHours = none → (coerceRecord raw).aisGapHours = 0)) := by
  refine ⟨?_, ?_, ?_, ?_⟩
  · intro h
    simp [validateBatch, h]
  · intro c
    simp [missing_columns, List.mem_filter]
  · intro h
    simp [validateBatch, h]
  · intro raw
    refine ⟨?_, ?_, ?_, ?_, ?_, ?_⟩ <;> (intro h; simp [coerceRecord, h])

/-- C7 witness: a batch missing every column fails with the message naming
the missing columns; a batch with all required columns succeeds; a `none`
numeric cell is coerced to 0. -/
theorem C7_schema_validation_witness :
    validateBatch ["MMSI"] [] =
      Except.error ("Missing required columns: " ++
        String.intercalate ", " (missing_columns ["MMSI"])) ∧
    validateBatch required_columns [] =
      Except.ok (([] : List RawVesselRecord).map coerceRecord) ∧
    (coerceRecord ⟨"V", "1", "2", "F", none, none, none, none, none, none⟩).daysSincePort = 0 :=
  ⟨(C7_schema_validation ["MMSI"] []).1 (by decide),
   (C7_schema_validation required_columns []).2.2.1 (by decide),
   ((C7_schema_validation required_columns []).2.2.2
      ⟨"V", "1", "2", "F", none, none, none, none, none, none⟩).2.2.1 rfl⟩

/-- C9: the risk level is a fixed-cut-point function of the score
(≥80 Critical, ≥60 High, ≥40 Medium, else Low), and whenever the five
weights sum below 80 no record can ever be rated "Critical". -/
theorem C9_risk_level_fixed_cutpoints :
    (∀ s : ℕ, risk_level s = "Critical" ↔ 80 ≤ s) ∧
    (∀ s : ℕ, risk_level s = "High" ↔ 60 ≤ s ∧ s < 80) ∧
    (∀ s : ℕ, risk_level s = "Medium" ↔ 40 ≤ s ∧ s < 60) ∧
    (∀ s : ℕ, risk_level s = "Low" ↔ s < 40) ∧
    (∀ (cfg : ScoringConfig) (row : VesselRecord),
      cfg.w_flag + cfg.w_days_port + cfg.w_loiter + cfg.w_ais_gap + cfg.w_slow_speed < 80 →
      risk_level (score_vessel cfg row) ≠ "Critical") := by
  have hcrit : ∀ s : ℕ, risk_level s = "Critical" ↔ 80 ≤ s := by
    intro s
    simp only [risk_level]
    split_ifs with h1 h2 h3 <;>
      first
      | exact iff_of_true rfl (by omega)
      | exact iff_of_false (by decide) (by omega)
  refine ⟨hcrit, ?_, ?_, ?_, ?_⟩
  · intro s
    simp only [risk_level]
    split_ifs with h1 h2 h3 <;>
      first
      | exact iff_of_true rfl (by omega)
      | exact iff_of_false (by decide) (by omega)
  · intro s
    simp only [risk_level]
    split_ifs with h1 h2 h3 <;>
      first
      | exact iff_of_true rfl (by omega)
      | exact iff_of_false (by decide) (by omega)
  · intro s
    simp only [risk_level]
    split_ifs with h1 h2 h3 <;>
      first
      | exact iff_of_true rfl (by omega)
      | exact iff_of_false (by decide) (by omega)
  · intro cfg row hsum hlevel
    have hb := score_vessel_le_sum cfg row
    have := (hcrit _).mp hlevel
    omega

/-- C9 witness: under a configuration whose weights sum to 75, the fully
triggered vessel `vesselAlpha` is still not rated "Critical". -/
theorem C9_risk_level_fixed_cutpoints_witness :
    risk_level (score_vessel lowWeightConfig vesselAlpha) ≠ "Critical" :=
  C9_risk_level_fixed_cutpoints.2.2.2.2 lowWeightConfig vesselAlpha (by decide)

/-- C10: a vessel's risk score and reason list computed by the per-row
pipeline stage depend only on the vessel's own record and the scoring
configuration — not on the patrol position or on the other vessels in
the batch. -/
theorem C10_score_depends_only_on_record_and_config
    (cfg : ScoringConfig) (plat1 plon1 plat2 plon2 : ℝ)
    (rows1 rows2 : List VesselRecord) (s1 s2 : ScoredVessel)
    (h1 : s1 ∈ pipelineRows cfg plat1 plon1 rows1)
    (h2 : s2 ∈ pipelineRows cfg plat2 plon2 rows2)
    (hrec : s1.record = s2.record) :
    s1.riskScore = s2.riskScore ∧ s1.reasonList = s2.reasonList := by
  obtain ⟨r1, hr1, rfl⟩ := List.mem_map.mp h1
  obtain ⟨r2, hr2, rfl⟩ := List.mem_map.mp h2
  simp only [scoreRow] at hrec
  subst hrec
  exact ⟨rfl, rfl⟩

/-- C10 witness: the same record in two runs with different patrol
positions and (trivially different) batches receives the same score and
reason list. -/
theorem C10_score_depends_only_on_record_and_config_witness :
    (scoreRow defaultConfig 0 0 vesselAlpha).riskScore =
      (scoreRow defaultConfig 5 5 vesselAlpha).riskScore ∧
    (scoreRow defaultConfig 0 0 vesselAlpha).reasonList =
      (scoreRow defaultConfig 5 5 vesselAlpha).reasonList := by
  exact C10_score_depends_only_on_record_and_config defaultConfig 0 0 5 5
    [vesselAlpha] [vesselAlpha, vesselBravo]
    (scoreRow defaultConfig 0 0 vesselAlpha) (scoreRow defaultConfig 5 5 vesselAlpha)
    (by simp [pipelineRows]) (by simp [pipelineRows]) rfl

/-- C8: the planar bearing angle `atan2(dlat, dlon)` in degrees is
bucketed into exactly one cardinal direction with East on [-45, 45],
North on (45, 135), South on (-135, -45) and West otherwise; the
majority direction has maximal count among the bearings of the vessels
in the 100 nm set; and when the 100 nm set is empty the summary is the
fixed no-vessel sentence without bearing or priority text. -/
theorem C8_bearing_buckets_and_summary :
    (∀ lat_p lon_p lat_v lon_v : ℝ,
      (cardinal_direction lat_p lon_p lat_v lon_v = "East" ↔
        -45 ≤ degrees (atan2 (lat_v - lat_p) (lon_v - lon_p)) ∧
          degrees (atan2 (lat_v - lat_p) (lon_v - lon_p)) ≤ 45) ∧
      (cardinal_direction lat_p lon_p lat_v lon_v = "North" ↔
        45 < degrees (atan2 (lat_v - lat_p) (lon_v - lon_p)) ∧
          degrees (atan2 (lat_v - lat_p) (lon_v - lon_p)) < 135) ∧
      (cardinal_direction lat_p lon_p lat_v lon_v = "South" ↔
        -135 < degrees (atan2 (lat_v - lat_p) (lon_v - lon_p)) ∧
          degrees (atan2 (lat_v - lat_p) (lon_v - lon_p)) < -45) ∧
      (cardinal_direction lat_p lon_p lat_v lon_v = "West" ↔
        ¬(-45 ≤ degrees (atan2 (lat_v - lat_p) (lon_v - lon_p)) ∧
            degrees (atan2 (lat_v - lat_p) (lon_v - lon_p)) ≤ 45) ∧
        ¬(45 < degrees (atan2 (lat_v - lat_p) (lon_v - lon_p)) ∧
            degrees (atan2 (lat_v - lat_p) (lon_v - lon_p)) < 135) ∧
        ¬(-135 < degrees (atan2 (lat_v - lat_p) (lon_v - lon_p)) ∧
            degrees (atan2 (lat_v - lat_p) (lon_v - lon_p)) < -45))) ∧
    (∀ (plat plon : ℝ) (vs : List VesselRecord) (d : String),
      ((vs.map fun r => cardinal_direction plat plon r.latitude r.longitude).count d) ≤
        ((vs.map fun r => cardinal_direction plat plon r.latitude r.longitude).count
          (majorityDirection
            (vs.map fun r => cardinal_direction plat plon r.latitude r.longitude)))) ∧
    (∀ (cfg : ScoringConfig) (plat plon : ℝ) (rows : List VesselRecord),
      (∀ r ∈ rows, ¬ distanceFromPatrol plat plon r ≤ 100) →
      operationalSummary cfg plat plon rows =
        "Summary: There are no vessels within 100 miles of your position.") := by
  refine ⟨?_, ?_, ?_⟩
  · intro lat_p lon_p lat_v lon_v
    simp only [cardinal_direction]
    split_ifs with h1 h2 h3
    · exact ⟨iff_of_true rfl h1,
        iff_of_false (by decide) (by rintro ⟨a, b⟩; linarith [h1.2]),
        iff_of_false (by decide) (by rintro ⟨a, b⟩; linarith [h1.1]),
        iff_of_false (by decide) (by rintro ⟨hn, _⟩; exact hn h1)⟩
    · exact ⟨iff_of_false (by decide) h1,
        iff_of_true rfl h2,
        iff_of_false (by decide) (by rintro ⟨a, b⟩; linarith [h2.1]),
        iff_of_false (by decide) (by rintro ⟨_, hn, _⟩; exact hn h2)⟩
    · exact ⟨iff_of_false (by decide) h1,
        iff_of_false (by decide) h2,
        iff_of_true rfl h3,
        iff_of_false (by decide) (by rintro ⟨_, _, hn⟩; exact hn h3)⟩
    · exact ⟨iff_of_false (by decide) h1,
        iff_of_false (by decide) h2,
        iff_of_false (by decide) h3,
        iff_of_true rfl ⟨h1, h2, h3⟩⟩
  · intro plat plon vs d
    apply majorityDirection_count_ge
    intro s hs
    obtain ⟨r, _, rfl⟩ := List.mem_map.mp hs
    exact cardinal_direction_mem plat plon r.latitude r.longitude
  · intro cfg plat plon rows h
    have hfil : List.filter
        (fun r => decide (distanceFromPatrol plat plon r ≤ 100)) rows = [] := by
      rw [List.filter_eq_nil_iff]
      intro a ha
      simpa using h a ha
    simp only [operationalSummary, hfil]
    simp

/-- C8 witness: with an empty vessel set the 100 nm set is empty and the
summary is the fixed no-vessel sentence. -/
theorem C8_bearing_buckets_and_summary_witness :
    operationalSummary defaultConfig 0 0 [] =
      "Summary: There are no vessels within 100 miles of your position." :=
  C8_bearing_buckets_and_summary.2.2 defaultConfig 0 0 [] (by simp)
